import Mathlib

/-!
Verification of the tryon-saas job pipeline and image compositing core.

The definitions below are shallow embeddings of the Python source:
- `backend/app/infra/db/crud.py` (job store, claimer, watchdog),
- `backend/app/workers/worker.py` (worker loop / `process_one`),
- `backend/app/ai/image_utils.py` (quality validator, border
  decontamination, compositor),
- `backend/app/ai/pose.py` (torso anchor locator).

Machine integers are modelled as `Nat`/`Int`, timestamps as `Int`
(seconds), floating point pixel arithmetic as `ℚ` (exact on the uint8
values and the rational constants that occur; divergences from binary
floats are noted where relevant), and nullable columns as `Option`.
-/

namespace TryOnSaas

/-! ## Job data model (`backend/app/infra/db/models.py`, `TryOnJob`) -/

/-- `status` column of `tryon_jobs`: queued | processing | done | error. -/
inductive JobStatus where
  | queued
  | processing
  | done
  | error
deriving DecidableEq, Repr

/-- Shallow embedding of the `TryOnJob` row
(`backend/app/infra/db/models.py`).  `createdAt`, `processingStartedAt`
and `completedAt` are timestamps in seconds; `id` is an abstract
identifier. -/
structure Job where
  id : Nat
  status : JobStatus
  personImagePath : String
  garmentImagePath : String
  resultImagePath : Option String
  errorCode : Option String
  errorMessage : Option String
  attempts : Nat
  maxAttempts : Nat
  processingStartedAt : Option Int
  completedAt : Option Int
  createdAt : Int
deriving DecidableEq, Repr

/-! ## Watchdog (`crud.fail_stuck_jobs`) -/

/-- The `WHERE` clause of `fail_stuck_jobs`: `status == 'processing'`,
`processing_started_at IS NOT NULL`, `processing_started_at < now - timeout`. -/
def isStuck (now timeoutSeconds : Int) (j : Job) : Bool :=
  match j.status, j.processingStartedAt with
  | .processing, some t => t < now - timeoutSeconds
  | _, _ => false

/-- The per-row update applied by `fail_stuck_jobs` to every selected row:
status=error, error_code=WORKER_TIMEOUT, a fixed message, completed_at=now.
(There is no branch on `attempts` in the source.) -/
def failStuckUpdate (now : Int) (j : Job) : Job :=
  { j with
    status := .error
    errorCode := some "WORKER_TIMEOUT"
    errorMessage := some "Job ficou travado em processing e foi finalizado por timeout."
    completedAt := some now }

/-- One job as transformed by a `fail_stuck_jobs` sweep: updated when
selected, untouched otherwise. -/
def sweepOne (now timeoutSeconds : Int) (j : Job) : Job :=
  if isStuck now timeoutSeconds j then failStuckUpdate now j else j

/-- `fail_stuck_jobs(db, timeout_seconds)`: applies `failStuckUpdate` to
every stuck row and returns the final table plus the count of affected
rows. -/
def failStuckJobs (now timeoutSeconds : Int) (jobs : List Job) : List Job × Nat :=
  (jobs.map (sweepOne now timeoutSeconds),
   (jobs.filter (isStuck now timeoutSeconds)).length)

/-- The concrete job of the spec scenario: in `processing` since t=0 with
`attempts=1, max_attempts=3`. -/
def scenarioStuckJob : Job :=
  { id := 1
    status := .processing
    personImagePath := "p.jpg"
    garmentImagePath := "g.jpg"
    resultImagePath := none
    errorCode := none
    errorMessage := none
    attempts := 1
    maxAttempts := 3
    processingStartedAt := some 0
    completedAt := none
    createdAt := 0 }

/-! ## Job claimer (`crud.claim_next_job`) -/

/-- The field updates performed on the claimed row:
status=processing, processing_started_at=now, error fields cleared,
`attempts = int(attempts or 0) + 1`. -/
def claimUpdate (now : Int) (j : Job) : Job :=
  { j with
    status := .processing
    processingStartedAt := some now
    errorCode := none
    errorMessage := none
    attempts := j.attempts + 1 }

/-- `SELECT ... WHERE status='queued' ORDER BY created_at ASC LIMIT 1`:
returns the index and value of a queued row with minimal `created_at`
(earliest such row on ties), or `none` if no queued row exists. -/
def selectQueued : List Job → Option (Nat × Job)
  | [] => none
  | j :: rest =>
    match selectQueued rest with
    | none => if j.status = .queued then some (0, j) else none
    | some (i, b) =>
      if j.status = .queued then
        if j.createdAt ≤ b.createdAt then some (0, j) else some (i + 1, b)
      else
        some (i + 1, b)

/-- `claim_next_job(db)` (happy path, the select-and-update executed as
one transaction): claims the earliest queued row if any, returning the
claimed job and the new table; returns `none` and the unchanged table
otherwise. -/
def claimNextJob (now : Int) (jobs : List Job) : Option Job × List Job :=
  match selectQueued jobs with
  | none => (none, jobs)
  | some (i, j) => (some (claimUpdate now j), jobs.set i (claimUpdate now j))

/-! ## Concurrency model for the claimer

Two small-step models of `claim_next_job` running in several worker
processes against one shared table.

* `atomicStep` models the primary path (`SELECT ... FOR UPDATE SKIP
  LOCKED` + `UPDATE` + `COMMIT`): the row lock held from selection to
  commit makes the whole claim one atomic action against the store.
* `fbRead`/`fbWrite` model the fallback path taken when the store raises
  on `with_for_update` (the `except (OperationalError, TypeError)`
  branch): an unlocked `SELECT` followed, as a separate action, by field
  assignments on the stale ORM object and a `COMMIT`.

`claims` records, in commit order, each `(worker, row index)` pair for
which a claim transaction committed. -/

/-- Shared store plus claim log for the atomic (row-locked) model. -/
structure AtomicStore where
  jobs : List Job
  claims : List (Nat × Nat)
deriving DecidableEq, Repr

/-- One whole `claim_next_job` invocation by worker `w` under the locked
path: selection and update are a single atomic action. -/
def atomicStep (now : Int) (s : AtomicStore) (w : Nat) : AtomicStore :=
  match selectQueued s.jobs with
  | none => s
  | some (i, j) =>
    { jobs := s.jobs.set i (claimUpdate now j)
      claims := s.claims ++ [(w, i)] }

/-- Shared store, per-worker stale ORM snapshots, and claim log for the
fallback (unlocked) model.  `locals[w] = some (i, j)` means worker `w`
has executed its unlocked `SELECT` and holds row `i` with snapshot `j`. -/
structure FallbackStore where
  jobs : List Job
  locals : List (Option (Nat × Job))
  claims : List (Nat × Nat)
deriving DecidableEq, Repr

/-- Actions of the fallback interleaving: worker `w` either performs its
unlocked `SELECT` or its `UPDATE ... COMMIT`. -/
inductive FbAct where
  | read (w : Nat)
  | write (w : Nat)
deriving DecidableEq, Repr

/-- One action of the fallback model.  A `read` stores the selected row
(if any) in the worker's local state; a `write` commits the field
assignments computed from the stale snapshot and logs the claim. -/
def fbStep (now : Int) (s : FallbackStore) : FbAct → FallbackStore
  | .read w =>
    match s.locals.get? w with
    | some none => { s with locals := s.locals.set w (selectQueued s.jobs) }
    | _ => s
  | .write w =>
    match s.locals.get? w with
    | some (some (i, j)) =>
      { jobs := s.jobs.set i (claimUpdate now j)
        locals := s.locals.set w none
        claims := s.claims ++ [(w, i)] }
    | _ => s

/-- Run a schedule of fallback actions. -/
def fbExec (now : Int) (s : FallbackStore) (sched : List FbAct) : FallbackStore :=
  sched.foldl (fbStep now) s

/-- Run a schedule of atomic claims (the schedule lists the invoking
worker of each claim, in store commit order). -/
def atomicExec (now : Int) (s : AtomicStore) (sched : List Nat) : AtomicStore :=
  sched.foldl (atomicStep now) s

/-- A single queued job, as created by `create_job`. -/
def freshQueuedJob : Job :=
  { id := 1
    status := .queued
    personImagePath := "p.jpg"
    garmentImagePath := "g.jpg"
    resultImagePath := none
    errorCode := none
    errorMessage := none
    attempts := 0
    maxAttempts := 2
    processingStartedAt := none
    completedAt := none
    createdAt := 0 }

/-- Two idle workers facing a single queued job (fallback model). -/
def fbInit : FallbackStore :=
  { jobs := [freshQueuedJob], locals := [none, none], claims := [] }

/-! ## Numeric helpers shared by the image components -/

/-- Python `int(q)`: truncation toward zero. -/
def pyint (q : ℚ) : Int :=
  if q < 0 then -Rat.floor (-q) else Rat.floor q

/-- `Rat.floor` agrees with the floor of the archimedean order. -/
theorem ratFloor_eq (q : ℚ) : Rat.floor q = ⌊q⌋ := by
  rw [Rat.floor_def', Rat.floor_def]

/-- `pyint` is the floor on nonnegatives and the ceiling on negatives. -/
theorem pyint_eq (q : ℚ) : pyint q = if q < 0 then ⌈q⌉ else ⌊q⌋ := by
  unfold pyint
  rw [ratFloor_eq, ratFloor_eq, Int.floor_neg, neg_neg]

/-- `np.clip(v, lo, hi)` on scalars. -/
def clip (lo hi q : ℚ) : ℚ :=
  if q < lo then lo else if hi < q then hi else q

/-- `np.clip(v, 0, 255).astype(np.uint8)`: clamp to `[0, 255]` then
truncate to an integral channel value. -/
def toUint8 (q : ℚ) : Nat :=
  (Rat.floor (clip 0 255 q)).toNat

/-! ## Quality validator (`image_utils.validate_garment_photo`)

The five raw signals (resolution, variance of Laplacian, mean luma,
white-background ratio, Canny edge density) are produced by OpenCV
calls the validator only threshold-compares; they enter the embedding as
the fields of `GarmentSignals`, and the validator's own arithmetic is
embedded exactly. -/

/-- The raw measurements `validate_garment_photo` computes from the image
before thresholding. -/
structure GarmentSignals where
  height : Nat
  width : Nat
  sharpness : ℚ
  brightness : ℚ
  whiteRatio : ℚ
  edgeDensity : ℚ
deriving DecidableEq, Repr

/-- The five failing conditions, in evaluation order. -/
def lowResFlag (s : GarmentSignals) : Bool := decide (min s.height s.width < 480)

def blurryFlag (s : GarmentSignals) : Bool := decide (s.sharpness < 70)

def lowLightFlag (s : GarmentSignals) : Bool := decide (s.brightness < 70)

def busyBgFlag (s : GarmentSignals) : Bool := decide (s.whiteRatio < 1/4)

def textureFlag (s : GarmentSignals) : Bool := decide (18/100 < s.edgeDensity)

/-- The score as a function of the five failure flags:
`1.0` minus one fixed deduction per failed signal, clamped to `[0,1]`
by `np.clip`. -/
def scoreOfFlags (a b c d e : Bool) : ℚ :=
  clip 0 1
    (1 - (if a then 18/100 else 0) - (if b then 25/100 else 0)
       - (if c then 18/100 else 0) - (if d then 22/100 else 0)
       - (if e then 12/100 else 0))

/-- The reasons list as a function of the five failure flags, in signal
evaluation order. -/
def reasonsOfFlags (a b c d e : Bool) : List String :=
  (if a then ["LOW_RESOLUTION"] else [])
    ++ (if b then ["TOO_BLURRY"] else [])
    ++ (if c then ["LOW_LIGHT"] else [])
    ++ (if d then ["BUSY_BACKGROUND"] else [])
    ++ (if e then ["TOO_MUCH_TEXTURE"] else [])

/-- The tips list as appended by the source, in signal evaluation order,
before the `[:4]` truncation. -/
def tipsOfFlags (a b c d e : Bool) : List String :=
  (if a then ["Aproxime a peça e use maior resolução."] else [])
    ++ (if b then ["Imagem desfocada. Apoie o celular e aumente a luz."] else [])
    ++ (if c then ["Pouca luz. Faça a foto em ambiente mais iluminado."] else [])
    ++ (if d then ["Fundo poluído. Prefira fundo liso e com contraste."] else [])
    ++ (if e then ["Fundo com muita textura. Use fundo simples."] else [])

/-- Python `round(q, 3)`.  Modelled as round-half-up at the third decimal;
every score the validator produces is an exact multiple of `1/100`, so no
tie-breaking case (where Python's half-even rule could differ) is
reachable. -/
def round3 (q : ℚ) : ℚ :=
  (Rat.floor (q * 1000 + 1/2) : ℚ) / 1000

/-- The report returned by `validate_garment_photo`.  `score` is the
rounded score of the returned dict; `ok` is computed from the unrounded
score as in the source. -/
structure QualityReport where
  ok : Bool
  score : ℚ
  reasons : List String
  tips : List String
deriving DecidableEq, Repr

/-- `validate_garment_photo(bgr)`, as a function of the raw signals. -/
def validateGarmentPhoto (s : GarmentSignals) : QualityReport :=
  let a := lowResFlag s
  let b := blurryFlag s
  let c := lowLightFlag s
  let d := busyBgFlag s
  let e := textureFlag s
  let score := scoreOfFlags a b c d e
  { ok := decide (score ≥ 55/100)
    score := round3 score
    reasons := reasonsOfFlags a b c d e
    tips := (tipsOfFlags a b c d e).take 4 }

/-! ## Anchor locator (`backend/app/ai/pose.py`,
`detect_torso_anchor_mediapipe`)

The MediaPipe pose call is an external capability; its result enters the
embedding as a detection flag plus the four landmarks the repository's
locators read (both shoulders and both hips, each a normalized
position with a visibility confidence).  The locator in
`app/ai/pose.py` — the one imported by the worker — reads only the two
shoulder landmarks.  The float constants `0.62` and `0.55` are modelled
by the exact rationals `62/100` and `55/100`. -/

/-- One MediaPipe landmark: normalized coordinates and visibility. -/
structure Landmark where
  x : ℚ
  y : ℚ
  visibility : ℚ
deriving DecidableEq, Repr

/-- The landmark data the repository reads from a pose result. -/
structure PoseResult where
  detected : Bool
  leftShoulder : Landmark
  rightShoulder : Landmark
  leftHip : Landmark
  rightHip : Landmark
deriving DecidableEq, Repr

/-- The anchor rectangle (`TorsoAnchor` dataclass). -/
structure TorsoAnchor where
  x : Int
  y : Int
  w : Int
  h : Int
deriving DecidableEq, Repr

/-- `detect_torso_anchor_mediapipe(person_bgr)` from
`backend/app/ai/pose.py` with the default ratios
`width_ratio=0.62, height_ratio=0.55`, for a `H×W` person image. -/
def detectTorsoAnchor (W H : Nat) (res : PoseResult) : Option TorsoAnchor :=
  if !res.detected then none
  else if res.leftShoulder.visibility < 2/5 ∨ res.rightShoulder.visibility < 2/5 then none
  else
    let lx := pyint (res.leftShoulder.x * W)
    let ly := pyint (res.leftShoulder.y * H)
    let rx := pyint (res.rightShoulder.x * W)
    let ry := pyint (res.rightShoulder.y * H)
    let shoulderW : Int := max 1 |rx - lx|
    let cx : Int := Int.fdiv (lx + rx) 2
    let cy : Int := Int.fdiv (ly + ry) 2
    let targetW : Int := pyint ((shoulderW : ℚ) / (62/100))
    let targetH : Int := pyint ((targetW : ℚ) * (55/100))
    let x : Int := cx - Int.fdiv targetW 2
    let y : Int := cy - pyint ((targetH : ℚ) * (1/4))
    let x := max 0 (min ((W : Int) - 1) x)
    let y := max 0 (min ((H : Int) - 1) y)
    let targetW := if x + targetW > (W : Int) then (W : Int) - x else targetW
    let targetH := if y + targetH > (H : Int) then (H : Int) - y else targetH
    if targetW ≤ 20 ∨ targetH ≤ 20 then none
    else some { x := x, y := y, w := targetW, h := targetH }

/-- The shoulder-midpoint pixel column `cx = (lx + rx) // 2` of the
locator's geometry. -/
def shoulderMidX (W : Nat) (res : PoseResult) : Int :=
  Int.fdiv (pyint (res.leftShoulder.x * W) + pyint (res.rightShoulder.x * W)) 2

/-- The shoulder-midpoint pixel row `cy = (ly + ry) // 2` of the
locator's geometry. -/
def shoulderMidY (H : Nat) (res : PoseResult) : Int :=
  Int.fdiv (pyint (res.leftShoulder.y * H) + pyint (res.rightShoulder.y * H)) 2

/-- The hip line: the lower of the two hip landmarks in pixel rows, the
quantity `hip_y = max(lhy, rhy)` of the legacy locator
(`backend/image_utils.py`). -/
def hipLineY (H : Nat) (res : PoseResult) : ℚ :=
  max (res.leftHip.y * H) (res.rightHip.y * H)

/-! ## Compositor (`image_utils.overlay_bgra_on_bgr`)

Images are total functions from row, column (and channel) to a uint8
value; the array dimensions are passed alongside.  The per-pixel blend
`fg*alpha + bg*(1-alpha)` with `alpha = a/255` is exact in binary
floating point on the uint8 values involved whenever `a ∈ {0, 255}`, so
the `ℚ` model coincides with the float computation in the cases the
claims quantify over. -/

/-- `overlay_bgra_on_bgr(base_bgr, fg_bgra, x, y)` for a `bh×bw` base,
a `fh×fw` overlay with RGB planes `fgRgb` and alpha plane `fgA`, placed
at `(x, y)`.  Returns the output image as a function of
(row, column, channel). -/
def overlayBgraOnBgr (bh bw : Nat) (base : Nat → Nat → Nat → Nat)
    (fh fw : Nat) (fgRgb : Nat → Nat → Nat → Nat) (fgA : Nat → Nat → Nat)
    (x y : Int) : Nat → Nat → Nat → Nat :=
  let x1 : Int := max 0 x
  let y1 : Int := max 0 y
  let x2 : Int := min (bw : Int) (x + fw)
  let y2 : Int := min (bh : Int) (y + fh)
  if x1 ≥ x2 ∨ y1 ≥ y2 then base
  else fun i j c =>
    if y1 ≤ (i : Int) ∧ (i : Int) < y2 ∧ x1 ≤ (j : Int) ∧ (j : Int) < x2 then
      let fi := ((i : Int) - y).toNat
      let fj := ((j : Int) - x).toNat
      let α : ℚ := (fgA fi fj : ℚ) / 255
      toUint8 ((fgRgb fi fj c : ℚ) * α + (base i j c : ℚ) * (1 - α))
    else base i j c

/-- Whether output pixel `(i, j)` lies in the overlap region written by
`overlay_bgra_on_bgr`. -/
def inOverlap (bh bw fh fw : Nat) (x y : Int) (i j : Nat) : Prop :=
  max 0 y ≤ (i : Int) ∧ (i : Int) < min (bh : Int) (y + fh)
    ∧ max 0 x ≤ (j : Int) ∧ (j : Int) < min (bw : Int) (x + fw)

instance (bh bw fh fw : Nat) (x y : Int) (i j : Nat) :
    Decidable (inOverlap bh bw fh fw x y i j) := by
  unfold inOverlap; infer_instance

/-! ## Border decontamination (`image_utils._decontaminate_border`)

The numpy code is pixelwise; `decontaminatePixel` embeds the arithmetic
for one BGRA pixel and `decontaminateBorder` maps it over the image.
On a pixel outside the edge band the factor is exactly `1.0` also in
float32, and inside the band the float32 factor is strictly below `1`
for every representable opacity, so the qualitative behaviour proved
below matches the float computation for all uint8 inputs. -/

/-- One BGRA pixel: blue, green, red, alpha channel values. -/
structure Bgra where
  b : Nat
  g : Nat
  r : Nat
  a : Nat
deriving DecidableEq, Repr

/-- `_decontaminate_border` on one pixel: normalized opacity
`a = alpha/255`; pixels with `0.02 < a < 0.85` get their RGB scaled by
`1 - 0.35*(0.85 - a)/0.83`; the alpha channel is copied. -/
def decontaminatePixel (p : Bgra) : Bgra :=
  let a : ℚ := (p.a : ℚ) / 255
  let strength : ℚ := if 1/50 < a ∧ a < 17/20 then (17/20 - a) / (83/100) else 0
  let factor : ℚ := 1 - 7/20 * strength
  { b := toUint8 ((p.b : ℚ) * factor)
    g := toUint8 ((p.g : ℚ) * factor)
    r := toUint8 ((p.r : ℚ) * factor)
    a := p.a }

/-- `_decontaminate_border(bgra)` over a whole image. -/
def decontaminateBorder (img : Nat → Nat → Bgra) : Nat → Nat → Bgra :=
  fun i j => decontaminatePixel (img i j)

/-! ## Worker (`backend/app/workers/worker.py`, `process_one`)

The filesystem and OpenCV effects are modelled by a `WorkerEnv`
describing how each external call of one `process_one` run would turn
out; the job-state bookkeeping (which the claims are about) is embedded
exactly, including `mark_processing`, `mark_done` and `mark_error` from
`crud.py`.  Python exceptions become an `Except` value carrying the
exception's type name and `str(e)`. -/

/-- Outcome of the external calls made by one `process_one` run. -/
structure WorkerEnv where
  personReadOk : Bool
  garmentReadOk : Bool
  anchor : Option TorsoAnchor
  writeOk : Bool
  now : Int
deriving DecidableEq, Repr

/-- `crud.mark_processing`. -/
def markProcessing (now : Int) (j : Job) : Job :=
  { j with
    status := .processing
    processingStartedAt := some now
    errorCode := none
    errorMessage := none
    attempts := j.attempts + 1 }

/-- `crud.mark_done`. -/
def markDone (now : Int) (j : Job) (resultPath : String) : Job :=
  { j with
    status := .done
    resultImagePath := some resultPath
    completedAt := some now
    errorCode := none
    errorMessage := none }

/-- `crud.mark_error`: `error_message = (error_message or "")[:2000]`. -/
def markError (now : Int) (j : Job) (code msg : String) : Job :=
  { j with
    status := .error
    errorCode := some code
    errorMessage := some (msg.take 2000)
    completedAt := some now }

/-- The result path `RESULTS_DIR / f"{job.id}.png"`, with the results
directory abstracted to a prefix. -/
def resultPathFor (j : Job) : String :=
  "results/" ++ toString j.id ++ ".png"

/-- The body of the worker's `try` block after `mark_processing`: reads,
pose detection, segmentation + compositing, artifact write.  `ok` carries
the written result path; `error` carries the raised exception as
(type name, `str(e)`). -/
def pipelineBody (env : WorkerEnv) (j : Job) : Except (String × String) String :=
  if !env.personReadOk then
    .error ("ValueError", "Failed to read image: " ++ j.personImagePath)
  else if !env.garmentReadOk then
    .error ("ValueError", "Failed to read image: " ++ j.garmentImagePath)
  else
    match env.anchor with
    | none => .error ("ValueError", "POSE_NOT_FOUND")
    | some _ =>
      if env.writeOk then .ok (resultPathFor j)
      else .error ("RuntimeError", "WRITE_FAILED")

/-- The human message paired with `POSE_NOT_FOUND` in the handler. -/
def poseNotFoundHuman : String :=
  "Não foi possível detectar ombros/torso.\nUse foto frontal com corpo visível."

/-- The human message paired with `WRITE_FAILED` in the handler. -/
def writeFailedHuman : String :=
  "Falha ao salvar imagem resultado."

/-- The `except` handler of `process_one`: maps the caught exception to a
stable `(error_code, human message)` pair by matching on `str(e)`. -/
def classifyError (e : String × String) : String × String :=
  if e.2 = "POSE_NOT_FOUND" then ("POSE_NOT_FOUND", poseNotFoundHuman)
  else if e.2 = "WRITE_FAILED" then ("WRITE_FAILED", writeFailedHuman)
  else ("WORKER_ERROR", e.1 ++ ": " ++ e.2)

/-- `process_one(job_id)`: returns the persisted job and the boolean the
function returns.  Statuses other than queued/processing are rejected
up front; a queued job is first marked processing; any exception from
the pipeline body is caught, classified and persisted via `mark_error`
(the function itself never propagates it). -/
def processOne (env : WorkerEnv) (j : Job) : Job × Bool :=
  if j.status = .queued ∨ j.status = .processing then
    let j1 := if j.status = .queued then markProcessing env.now j else j
    match pipelineBody env j1 with
    | .ok path => (markDone env.now j1 path, true)
    | .error e =>
      let ch := classifyError e
      (markError env.now j1 ch.1 ch.2, false)
  else (j, false)

/-! ## Theorems -/

/-- The selection test of the watchdog sweep, as a proposition. -/
theorem isStuck_eq_true_iff (now timeoutSeconds : Int) (j : Job) :
    isStuck now timeoutSeconds j = true ↔
      (j.status = .processing ∧ ∃ t, j.processingStartedAt = some t ∧ t < now - timeoutSeconds) := by
  unfold isStuck
  cases hs : j.status <;> cases hp : j.processingStartedAt <;>
    simp [hs, hp]

/-- C1 (counterexample): a job stuck in `processing` 300s into a 240s
timeout with `attempts = 1 < 3 = max_attempts` is set to `error` with
`error_code = WORKER_TIMEOUT` by the sweep — not reset to `queued` with
`processing_started_at = null` as the claim states. -/
theorem C1_counterexample :
    scenarioStuckJob.attempts < scenarioStuckJob.maxAttempts
    ∧ isStuck 300 240 scenarioStuckJob = true
    ∧ (failStuckJobs 300 240 [scenarioStuckJob]).1.map Job.status = [JobStatus.error]
    ∧ (failStuckJobs 300 240 [scenarioStuckJob]).1.map Job.status ≠ [JobStatus.queued]
    ∧ (failStuckJobs 300 240 [scenarioStuckJob]).1.map Job.errorCode
        = [some "WORKER_TIMEOUT"] := by
  decide

/-- C1 (amended): the sweep maps `sweepOne` over the table; every job in
`processing` whose `processing_started_at` is non-null and older than
`now - timeout` is set to `error` with `error_code = WORKER_TIMEOUT` and
`completed_at = now` regardless of how `attempts` compares to
`max_attempts` (no job is ever reset to `queued`), with its attempt
count, start timestamp and result reference untouched; every other job
is left completely unchanged. -/
theorem C1_amended_watchdog (now timeoutSeconds : Int) (jobs : List Job) (j : Job) :
    (failStuckJobs now timeoutSeconds jobs).1 = jobs.map (sweepOne now timeoutSeconds)
    ∧ ((j.status = .processing
          ∧ ∃ t, j.processingStartedAt = some t ∧ t < now - timeoutSeconds) →
        (sweepOne now timeoutSeconds j).status = .error
        ∧ (sweepOne now timeoutSeconds j).errorCode = some "WORKER_TIMEOUT"
        ∧ (sweepOne now timeoutSeconds j).completedAt = some now
        ∧ (sweepOne now timeoutSeconds j).status ≠ .queued
        ∧ (sweepOne now timeoutSeconds j).attempts = j.attempts
        ∧ (sweepOne now timeoutSeconds j).processingStartedAt = j.processingStartedAt
        ∧ (sweepOne now timeoutSeconds j).resultImagePath = j.resultImagePath)
    ∧ (¬(j.status = .processing
          ∧ ∃ t, j.processingStartedAt = some t ∧ t < now - timeoutSeconds) →
        sweepOne now timeoutSeconds j = j) := by
  refine ⟨rfl, ?_, ?_⟩
  · intro h
    have hb : isStuck now timeoutSeconds j = true :=
      (isStuck_eq_true_iff now timeoutSeconds j).mpr h
    simp [sweepOne, hb, failStuckUpdate]
  · intro h
    cases hb : isStuck now timeoutSeconds j with
    | true => exact absurd ((isStuck_eq_true_iff now timeoutSeconds j).mp hb) h
    | false => simp [sweepOne, hb]

/-- Witness for `C1_amended_watchdog` at the spec's scenario job (stuck,
updated) and at a fresh queued job (untouched). -/
theorem C1_amended_watchdog_witness :
    (sweepOne 300 240 scenarioStuckJob).status = JobStatus.error
    ∧ (sweepOne 300 240 scenarioStuckJob).errorCode = some "WORKER_TIMEOUT"
    ∧ (sweepOne 300 240 scenarioStuckJob).attempts = 1
    ∧ sweepOne 300 240 freshQueuedJob = freshQueuedJob := by
  have hstuck := (C1_amended_watchdog 300 240 [] scenarioStuckJob).2.1
    ⟨rfl, 0, rfl, by decide⟩
  have hidle := (C1_amended_watchdog 300 240 [] freshQueuedJob).2.2
    (by intro h; exact absurd h.1 (by decide))
  exact ⟨hstuck.1, hstuck.2.1, by rw [hstuck.2.2.2.2.1]; decide, hidle⟩

/-- `selectQueued` returns an actual queued row of the table at the
returned index. -/
theorem selectQueued_mem :
    ∀ (jobs : List Job) (i : Nat) (j : Job),
      selectQueued jobs = some (i, j) → jobs[i]? = some j ∧ j.status = .queued := by
  intro jobs
  induction jobs with
  | nil => intro i j h; simp [selectQueued] at h
  | cons a rest ih =>
    intro i j h
    cases hr : selectQueued rest with
    | none =>
      simp only [selectQueued, hr] at h
      split_ifs at h with ha
      rw [Option.some_inj, Prod.mk.injEq] at h
      obtain ⟨hi, hj⟩ := h
      subst hi; subst hj
      exact ⟨List.getElem?_cons_zero, ha⟩
    | some ib =>
      obtain ⟨i0, b⟩ := ib
      simp only [selectQueued, hr] at h
      split_ifs at h with ha hle <;>
        rw [Option.some_inj, Prod.mk.injEq] at h <;>
        obtain ⟨hi, hj⟩ := h <;> subst hj
      · subst hi
        exact ⟨List.getElem?_cons_zero, ha⟩
      · obtain ⟨hg, hq⟩ := ih i0 b hr
        exact ⟨hi ▸ (List.getElem?_cons_succ.trans hg), hq⟩
      · obtain ⟨hg, hq⟩ := ih i0 b hr
        exact ⟨hi ▸ (List.getElem?_cons_succ.trans hg), hq⟩

/-- `selectQueued` returns `none` exactly when the table holds no queued
row. -/
theorem selectQueued_eq_none_iff (jobs : List Job) :
    selectQueued jobs = none ↔ ∀ j ∈ jobs, j.status ≠ .queued := by
  induction jobs with
  | nil => simp [selectQueued]
  | cons a rest ih =>
    cases hr : selectQueued rest with
    | none =>
      simp only [selectQueued, hr]
      by_cases ha : a.status = .queued
      · rw [if_pos ha]
        simp only [reduceCtorEq, false_iff]
        intro hall
        exact hall a (List.mem_cons_self a rest) ha
      · rw [if_neg ha]
        simp only [true_iff]
        intro j hj
        rcases List.mem_cons.mp hj with h | h
        · exact h ▸ ha
        · exact (ih.mp hr) j h
    | some ib =>
      obtain ⟨i0, b⟩ := ib
      have hb := selectQueued_mem rest i0 b hr
      have hbm : b ∈ rest := by
        obtain ⟨hlt, hg⟩ := List.getElem?_eq_some.mp hb.1
        exact hg ▸ List.getElem_mem hlt
      simp only [selectQueued, hr]
      constructor
      · intro h
        split_ifs at h
      · intro hall
        exact absurd hb.2 (hall b (List.mem_cons_of_mem a hbm))

/-- The row `selectQueued` returns has minimal `created_at` among the
queued rows of the table. -/
theorem selectQueued_min :
    ∀ (jobs : List Job) (i : Nat) (j : Job),
      selectQueued jobs = some (i, j) →
        ∀ (k : Nat) (jk : Job), jobs[k]? = some jk → jk.status = .queued →
          j.createdAt ≤ jk.createdAt := by
  intro jobs
  induction jobs with
  | nil => intro i j h; simp [selectQueued] at h
  | cons a rest ih =>
    intro i j h k jk hk hq
    cases hr : selectQueued rest with
    | none =>
      simp only [selectQueued, hr] at h
      split_ifs at h with ha
      rw [Option.some_inj, Prod.mk.injEq] at h
      obtain ⟨_, hj⟩ := h
      subst hj
      cases k with
      | zero =>
        rw [List.getElem?_cons_zero, Option.some_inj] at hk
        exact hk ▸ le_refl _
      | succ k0 =>
        rw [List.getElem?_cons_succ] at hk
        have hnone := (selectQueued_eq_none_iff rest).mp hr
        obtain ⟨hlt, hg⟩ := List.getElem?_eq_some.mp hk
        exact absurd hq (hnone jk (hg ▸ List.getElem_mem hlt))
    | some ib =>
      obtain ⟨i0, b⟩ := ib
      have hmin := ih i0 b hr
      simp only [selectQueued, hr] at h
      split_ifs at h with ha hle <;>
        rw [Option.some_inj, Prod.mk.injEq] at h <;>
        obtain ⟨_, hj⟩ := h <;> subst hj
      · cases k with
        | zero =>
          rw [List.getElem?_cons_zero, Option.some_inj] at hk
          exact hk ▸ le_refl _
        | succ k0 =>
          rw [List.getElem?_cons_succ] at hk
          exact le_trans hle (hmin k0 jk hk hq)
      · cases k with
        | zero =>
          rw [List.getElem?_cons_zero, Option.some_inj] at hk
          exact hk ▸ le_of_lt (lt_of_not_le hle)
        | succ k0 =>
          rw [List.getElem?_cons_succ] at hk
          exact hmin k0 jk hk hq
      · cases k with
        | zero =>
          rw [List.getElem?_cons_zero, Option.some_inj] at hk
          exact absurd (hk ▸ hq) ha
        | succ k0 =>
          rw [List.getElem?_cons_succ] at hk
          exact hmin k0 jk hk hq

/-- The racy schedule: both workers select before either commits. -/
def fbRace : List FbAct := [.read 0, .read 1, .write 0, .write 1]

/-- C2 (counterexample): with the fallback claiming path (the
`except (OperationalError, TypeError)` branch of `claim_next_job`, whose
`SELECT` takes no lock), two workers interleaved as
select₀, select₁, commit₀, commit₁ against a single queued job both
claim that job — and the lost update leaves `attempts = 1` after two
claims. -/
theorem C2_counterexample :
    (fbExec 100 fbInit fbRace).claims = [(0, 0), (1, 0)]
    ∧ (0, 0) ∈ (fbExec 100 fbInit fbRace).claims
    ∧ (1, 0) ∈ (fbExec 100 fbInit fbRace).claims
    ∧ (fbExec 100 fbInit fbRace).jobs.map Job.attempts = [1] := by
  decide

/-- The invariant of the atomic claiming model: no job index is claimed
twice, and every claimed row is in `processing`. -/
def AtomicInv (s : AtomicStore) : Prop :=
  s.claims.Pairwise (fun p q => p.2 ≠ q.2)
    ∧ ∀ p ∈ s.claims, ∃ jb, s.jobs[p.2]? = some jb ∧ jb.status = .processing

/-- One atomic claim preserves `AtomicInv`: it can only take a row that
is still `queued`, and every previously claimed row is `processing`. -/
theorem atomicStep_inv (now : Int) (s : AtomicStore) (w : Nat)
    (h : AtomicInv s) : AtomicInv (atomicStep now s w) := by
  obtain ⟨hpw, hcl⟩ := h
  unfold atomicStep
  cases hsel : selectQueued s.jobs with
  | none => exact ⟨hpw, hcl⟩
  | some ib =>
    obtain ⟨i, j⟩ := ib
    obtain ⟨hget, hq⟩ := selectQueued_mem s.jobs i j hsel
    have hlt : i < s.jobs.length := (List.getElem?_eq_some.mp hget).1
    have hfresh : ∀ p ∈ s.claims, p.2 ≠ i := by
      intro p hp hpi
      obtain ⟨jb, hjb, hjbs⟩ := hcl p hp
      rw [hpi, hget, Option.some_inj] at hjb
      rw [← hjb] at hjbs
      rw [hjbs] at hq
      exact JobStatus.noConfusion hq
    constructor
    · rw [List.pairwise_append]
      refine ⟨hpw, List.pairwise_singleton _ _, ?_⟩
      intro p hp q hq'
      rw [List.mem_singleton] at hq'
      exact hq' ▸ hfresh p hp
    · intro p hp
      rcases List.mem_append.mp hp with hold | hnew
      · obtain ⟨jb, hjb, hjbs⟩ := hcl p hold
        exact ⟨jb, (List.getElem?_set_ne (fun hip => hfresh p hold hip.symm)).trans hjb, hjbs⟩
      · rw [List.mem_singleton] at hnew
        subst hnew
        exact ⟨claimUpdate now j, List.getElem?_set_self hlt, rfl⟩

/-- C2 (amended): when every `claim_next_job` call runs on the locked
primary path — the store executes the `SELECT ... FOR UPDATE SKIP
LOCKED` plus the row update as one atomic transaction — any number of
workers performing any number of claims against a shared table claim
each job at most once: no two entries of the resulting claim log share a
job index.  (The fallback path does not have this guarantee, as
`C2_counterexample` shows.) -/
theorem C2_amended_at_most_one_claim (now : Int) (jobs : List Job) (sched : List Nat) :
    (atomicExec now ⟨jobs, []⟩ sched).claims.Pairwise (fun p q => p.2 ≠ q.2) := by
  suffices h : ∀ (s : AtomicStore), AtomicInv s → AtomicInv (atomicExec now s sched) by
    exact (h ⟨jobs, []⟩ ⟨List.Pairwise.nil, by intro p hp; exact absurd hp (List.not_mem_nil p)⟩).1
  induction sched with
  | nil => intro s hs; exact hs
  | cons w rest ih =>
    intro s hs
    exact ih (atomicStep now s w) (atomicStep_inv now s w hs)

/-- C3: whenever `claim_next_job` returns a job, some table row was
`queued` with minimal `created_at` among the queued rows, and the call
returns exactly that row with `status=processing`,
`processing_started_at=now`, `attempts` incremented by one and both
error fields cleared, updating only that row; when no queued row
exists it returns `none` and leaves every job unchanged. -/
theorem C3_claim_next (now : Int) (jobs : List Job) :
    ((∀ j ∈ jobs, j.status ≠ .queued) → claimNextJob now jobs = (none, jobs))
    ∧ (∀ j' : Job, (claimNextJob now jobs).1 = some j' →
        ∃ (i : Nat) (jb : Job),
          jobs[i]? = some jb
          ∧ jb.status = .queued
          ∧ (∀ (k : Nat) (jk : Job), jobs[k]? = some jk → jk.status = .queued →
              jb.createdAt ≤ jk.createdAt)
          ∧ j'.status = .processing
          ∧ j'.processingStartedAt = some now
          ∧ j'.attempts = jb.attempts + 1
          ∧ j'.errorCode = none
          ∧ j'.errorMessage = none
          ∧ j'.id = jb.id
          ∧ j'.createdAt = jb.createdAt
          ∧ j'.resultImagePath = jb.resultImagePath
          ∧ (claimNextJob now jobs).2 = jobs.set i j'
          ∧ ∀ (k : Nat), k ≠ i → (claimNextJob now jobs).2[k]? = jobs[k]?) := by
  constructor
  · intro hall
    have hnone : selectQueued jobs = none := (selectQueued_eq_none_iff jobs).mpr hall
    unfold claimNextJob
    rw [hnone]
  · intro j' hj'
    unfold claimNextJob at hj'
    cases hsel : selectQueued jobs with
    | none => rw [hsel] at hj'; exact absurd hj' (by simp)
    | some ib =>
      obtain ⟨i, jb⟩ := ib
      rw [hsel] at hj'
      simp only [Option.some_inj] at hj'
      obtain ⟨hget, hq⟩ := selectQueued_mem jobs i jb hsel
      refine ⟨i, jb, hget, hq, selectQueued_min jobs i jb hsel, ?_⟩
      subst hj'
      refine ⟨rfl, rfl, rfl, rfl, rfl, rfl, rfl, rfl, ?_, ?_⟩
      · unfold claimNextJob
        rw [hsel]
      · intro k hk
        unfold claimNextJob
        rw [hsel]
        exact List.getElem?_set_ne (fun hik => hk hik.symm)

/-- Witness for `C3_claim_next`: a table with only a processing job is
returned unchanged with no claim; a table with one queued job yields a
processing claim. -/
theorem C3_claim_next_witness :
    claimNextJob 100 [scenarioStuckJob] = (none, [scenarioStuckJob])
    ∧ (claimNextJob 100 [freshQueuedJob]).1.map Job.status = some JobStatus.processing
    ∧ (claimNextJob 100 [freshQueuedJob]).1.map Job.attempts = some 1 := by
  refine ⟨(C3_claim_next 100 [scenarioStuckJob]).1 (by decide), ?_, ?_⟩
  · obtain ⟨i, jb, h⟩ :=
      (C3_claim_next 100 [freshQueuedJob]).2 (claimUpdate 100 freshQueuedJob) (by decide)
    decide
  · decide

/-- The claim's formula for the total deduction: the sum of the fixed
deductions of the failed signals. -/
def deductionSum (s : GarmentSignals) : ℚ :=
  (if min s.height s.width < 480 then (18 : ℚ)/100 else 0)
    + (if s.sharpness < 70 then 25/100 else 0)
    + (if s.brightness < 70 then 18/100 else 0)
    + (if s.whiteRatio < 1/4 then 22/100 else 0)
    + (if 18/100 < s.edgeDensity then 12/100 else 0)

theorem deductionSum_eq_flags (s : GarmentSignals) :
    deductionSum s
      = (if lowResFlag s then (18 : ℚ)/100 else 0)
        + (if blurryFlag s then 25/100 else 0)
        + (if lowLightFlag s then 18/100 else 0)
        + (if busyBgFlag s then 22/100 else 0)
        + (if textureFlag s then 12/100 else 0) := by
  simp only [deductionSum, lowResFlag, blurryFlag, lowLightFlag, busyBgFlag, textureFlag,
    decide_eq_true_eq]

/-- `np.clip(q, 0, 1)` agrees with the clamp `max 0 (min 1 q)`. -/
theorem clip01_eq_max_min (q : ℚ) : clip 0 1 q = max 0 (min 1 q) := by
  unfold clip
  split_ifs with h1 h2
  · rw [min_eq_right (by linarith), max_eq_left (by linarith)]
  · rw [min_eq_left (by linarith), max_eq_right (by norm_num)]
  · rw [min_eq_right (by linarith), max_eq_right (by linarith)]

/-- Facts about the score arithmetic, checked over all 32 flag
combinations: the `round(score, 3)` is the identity on every reachable
score, the sequentially-subtracted score equals `1` minus the sum of the
deductions clamped to `[0, 1]`, and the score never drops below
`1 - 0.95 = 0.05`. -/
theorem scoreOfFlags_facts :
    ∀ (a b c d e : Bool),
      round3 (scoreOfFlags a b c d e) = scoreOfFlags a b c d e
      ∧ scoreOfFlags a b c d e
          = clip 0 1 (1 - ((if a then (18 : ℚ)/100 else 0) + (if b then 25/100 else 0)
              + (if c then 18/100 else 0) + (if d then 22/100 else 0)
              + (if e then 12/100 else 0)))
      ∧ 5/100 ≤ scoreOfFlags a b c d e := by
  intro a b c d e
  cases a <;> cases b <;> cases c <;> cases d <;> cases e <;>
    exact ⟨by norm_num [scoreOfFlags, round3, clip, ratFloor_eq],
      by norm_num [scoreOfFlags, clip],
      by norm_num [scoreOfFlags, clip]⟩

/-- `clip 0 1` is monotone. -/
theorem clip01_mono {q r : ℚ} (h : q ≤ r) : clip 0 1 q ≤ clip 0 1 r := by
  unfold clip
  split_ifs <;> linarith

/-- A single conditional deduction is monotone in its flag. -/
theorem iteDeduct_mono {p q : Bool} (h : p = true → q = true) {x : ℚ} (hx : 0 ≤ x) :
    (if p then x else 0) ≤ (if q then x else 0) := by
  cases p
  · cases q <;> simp [hx]
  · rw [h rfl]

/-- Fewer failed signals never lower the score. -/
theorem scoreOfFlags_mono (a b c d e a' b' c' d' e' : Bool)
    (ha : a = true → a' = true) (hb : b = true → b' = true)
    (hc : c = true → c' = true) (hd : d = true → d' = true)
    (he : e = true → e' = true) :
    scoreOfFlags a' b' c' d' e' ≤ scoreOfFlags a b c d e := by
  unfold scoreOfFlags
  apply clip01_mono
  have h1 := iteDeduct_mono ha (x := (18 : ℚ)/100) (by norm_num)
  have h2 := iteDeduct_mono hb (x := (25 : ℚ)/100) (by norm_num)
  have h3 := iteDeduct_mono hc (x := (18 : ℚ)/100) (by norm_num)
  have h4 := iteDeduct_mono hd (x := (22 : ℚ)/100) (by norm_num)
  have h5 := iteDeduct_mono he (x := (12 : ℚ)/100) (by norm_num)
  linarith

/-- Membership of each reason code in the reasons list is equivalent to
its flag (the five reason codes are distinct strings). -/
theorem reasonsOfFlags_mem :
    ∀ (a b c d e : Bool),
      (("LOW_RESOLUTION" ∈ reasonsOfFlags a b c d e) ↔ a = true)
      ∧ (("TOO_BLURRY" ∈ reasonsOfFlags a b c d e) ↔ b = true)
      ∧ (("LOW_LIGHT" ∈ reasonsOfFlags a b c d e) ↔ c = true)
      ∧ (("BUSY_BACKGROUND" ∈ reasonsOfFlags a b c d e) ↔ d = true)
      ∧ (("TOO_MUCH_TEXTURE" ∈ reasonsOfFlags a b c d e) ↔ e = true) := by
  intro a b c d e
  cases a <;> cases b <;> cases c <;> cases d <;> cases e <;>
    simp [reasonsOfFlags]

/-- C4: the validator's score is `1.0` minus the sum of the fixed
deductions of the failed signals (0.18 for `min(h,w)<480`, 0.25 for
Laplacian variance `<70`, 0.18 for mean luma `<70`, 0.22 for
white-background ratio `<0.25`, 0.12 for edge density `>0.18`), clamped
to `[0,1]`; `ok` holds iff `score ≥ 0.55`; the tips list is the
evaluation-order tips list truncated to at most 4 entries; and the score
is monotonically non-increasing in the triggered reason codes. -/
theorem C4_validator (s t : GarmentSignals) :
    (validateGarmentPhoto s).score = max 0 (min 1 (1 - deductionSum s))
    ∧ ((validateGarmentPhoto s).ok = true ↔ 55/100 ≤ (validateGarmentPhoto s).score)
    ∧ (validateGarmentPhoto s).tips.length ≤ 4
    ∧ (validateGarmentPhoto s).tips
        = (tipsOfFlags (lowResFlag s) (blurryFlag s) (lowLightFlag s)
            (busyBgFlag s) (textureFlag s)).take 4
    ∧ ((validateGarmentPhoto s).reasons ⊆ (validateGarmentPhoto t).reasons →
        (validateGarmentPhoto t).score ≤ (validateGarmentPhoto s).score) := by
  obtain ⟨hround, hform, _⟩ :=
    scoreOfFlags_facts (lowResFlag s) (blurryFlag s) (lowLightFlag s)
      (busyBgFlag s) (textureFlag s)
  have hscore : (validateGarmentPhoto s).score
      = scoreOfFlags (lowResFlag s) (blurryFlag s) (lowLightFlag s)
          (busyBgFlag s) (textureFlag s) := hround
  refine ⟨?_, ?_, ?_, rfl, ?_⟩
  · rw [hscore, hform, clip01_eq_max_min, deductionSum_eq_flags]
  · rw [hscore]
    show decide (_ ≥ _) = true ↔ _
    rw [decide_eq_true_eq]
  · show ((tipsOfFlags _ _ _ _ _).take 4).length ≤ 4
    rw [List.length_take]
    exact min_le_left 4 _
  · intro hsub
    obtain ⟨hroundT, _, _⟩ :=
      scoreOfFlags_facts (lowResFlag t) (blurryFlag t) (lowLightFlag t)
        (busyBgFlag t) (textureFlag t)
    have hscoreT : (validateGarmentPhoto t).score
        = scoreOfFlags (lowResFlag t) (blurryFlag t) (lowLightFlag t)
            (busyBgFlag t) (textureFlag t) := hroundT
    have hmemS := reasonsOfFlags_mem (lowResFlag s) (blurryFlag s) (lowLightFlag s)
      (busyBgFlag s) (textureFlag s)
    have hmemT := reasonsOfFlags_mem (lowResFlag t) (blurryFlag t) (lowLightFlag t)
      (busyBgFlag t) (textureFlag t)
    rw [hscore, hscoreT]
    exact scoreOfFlags_mono _ _ _ _ _ _ _ _ _ _
      (fun h => hmemT.1.mp (hsub (hmemS.1.mpr h)))
      (fun h => hmemT.2.1.mp (hsub (hmemS.2.1.mpr h)))
      (fun h => hmemT.2.2.1.mp (hsub (hmemS.2.2.1.mpr h)))
      (fun h => hmemT.2.2.2.1.mp (hsub (hmemS.2.2.2.1.mpr h)))
      (fun h => hmemT.2.2.2.2.mp (hsub (hmemS.2.2.2.2.mpr h)))

/-- Signals on which every check passes. -/
def goodSignals : GarmentSignals :=
  { height := 1000, width := 1000, sharpness := 100, brightness := 100,
    whiteRatio := 1/2, edgeDensity := 1/10 }

/-- Signals on which every check fails. -/
def badSignals : GarmentSignals :=
  { height := 100, width := 100, sharpness := 10, brightness := 10,
    whiteRatio := 0, edgeDensity := 1/2 }

theorem goodSignals_flags :
    lowResFlag goodSignals = false ∧ blurryFlag goodSignals = false
    ∧ lowLightFlag goodSignals = false ∧ busyBgFlag goodSignals = false
    ∧ textureFlag goodSignals = false := by
  refine ⟨?_, ?_, ?_, ?_, ?_⟩ <;>
    · simp only [lowResFlag, blurryFlag, lowLightFlag, busyBgFlag, textureFlag, goodSignals,
        decide_eq_false_iff_not]
      norm_num

theorem badSignals_flags :
    lowResFlag badSignals = true ∧ blurryFlag badSignals = true
    ∧ lowLightFlag badSignals = true ∧ busyBgFlag badSignals = true
    ∧ textureFlag badSignals = true := by
  refine ⟨?_, ?_, ?_, ?_, ?_⟩ <;>
    · simp only [lowResFlag, blurryFlag, lowLightFlag, busyBgFlag, textureFlag, badSignals,
        decide_eq_true_eq]
      norm_num

/-- Witness for `C4_validator` at concrete signals: a clean photo scores
`1` and passes; an all-failing photo scores no higher. -/
theorem C4_validator_witness :
    (validateGarmentPhoto goodSignals).score = 1
    ∧ (validateGarmentPhoto goodSignals).ok = true
    ∧ (validateGarmentPhoto badSignals).score ≤ (validateGarmentPhoto goodSignals).score := by
  obtain ⟨g1, g2, g3, g4, g5⟩ := goodSignals_flags
  have h := C4_validator goodSignals badSignals
  have hscore : (validateGarmentPhoto goodSignals).score = 1 := by
    show round3 (scoreOfFlags _ _ _ _ _) = 1
    rw [g1, g2, g3, g4, g5]
    norm_num [scoreOfFlags, round3, clip, ratFloor_eq]
  refine ⟨hscore, h.2.1.mpr (by rw [hscore]; norm_num), h.2.2.2.2 ?_⟩
  show reasonsOfFlags _ _ _ _ _ ⊆ reasonsOfFlags _ _ _ _ _
  rw [g1, g2, g3, g4, g5]
  simp [reasonsOfFlags]

/-- C9: the five deductions sum to `0.95`, so the validator's score is
always at least `0.05` (the lower clamp is never active), and when all
five signals fail the score is exactly `0.05` with `ok = false`. -/
theorem C9_score_floor (s : GarmentSignals) :
    5/100 ≤ (validateGarmentPhoto s).score
    ∧ ((min s.height s.width < 480 ∧ s.sharpness < 70 ∧ s.brightness < 70
          ∧ s.whiteRatio < 1/4 ∧ 18/100 < s.edgeDensity) →
        (validateGarmentPhoto s).score = 5/100 ∧ (validateGarmentPhoto s).ok = false) := by
  obtain ⟨hround, _, hfloor⟩ :=
    scoreOfFlags_facts (lowResFlag s) (blurryFlag s) (lowLightFlag s)
      (busyBgFlag s) (textureFlag s)
  refine ⟨hfloor.trans_eq hround.symm, ?_⟩
  rintro ⟨h1, h2, h3, h4, h5⟩
  have f1 : lowResFlag s = true := decide_eq_true h1
  have f2 : blurryFlag s = true := decide_eq_true h2
  have f3 : lowLightFlag s = true := decide_eq_true h3
  have f4 : busyBgFlag s = true := decide_eq_true h4
  have f5 : textureFlag s = true := decide_eq_true h5
  constructor
  · show round3 (scoreOfFlags _ _ _ _ _) = 5/100
    rw [f1, f2, f3, f4, f5]
    norm_num [scoreOfFlags, round3, clip, ratFloor_eq]
  · show decide (scoreOfFlags _ _ _ _ _ ≥ 55/100) = false
    rw [f1, f2, f3, f4, f5]
    rw [decide_eq_false_iff_not]
    norm_num [scoreOfFlags, clip]

/-- Witness for `C9_score_floor` at the all-failing signals. -/
theorem C9_score_floor_witness :
    5/100 ≤ (validateGarmentPhoto badSignals).score
    ∧ (validateGarmentPhoto badSignals).score = 5/100
    ∧ (validateGarmentPhoto badSignals).ok = false := by
  have h := C9_score_floor badSignals
  have hall := h.2 (by refine ⟨?_, ?_, ?_, ?_, ?_⟩ <;> norm_num [badSignals])
  exact ⟨h.1, hall.1, hall.2⟩

/-- C5: whenever the locator returns an anchor, the rectangle has
positive width and height, both exceeding the 20 px minimum usable size,
lies inside the image (`x + w ≤ W`, `y + h ≤ H`), and has nonnegative
origin; otherwise the locator returns `none`. -/
theorem C5_anchor_invariant (W H : Nat) (res : PoseResult) (a : TorsoAnchor)
    (h : detectTorsoAnchor W H res = some a) :
    0 < a.w ∧ 0 < a.h ∧ a.x + a.w ≤ (W : Int) ∧ a.y + a.h ≤ (H : Int)
      ∧ 20 < a.w ∧ 20 < a.h ∧ 0 ≤ a.x ∧ 0 ≤ a.y := by
  simp only [detectTorsoAnchor] at h
  split_ifs at h <;>
    (rw [Option.some_inj] at h; subst h;
     refine ⟨?_, ?_, ?_, ?_, ?_, ?_, ?_, ?_⟩ <;> dsimp only <;> omega)

/-- A pose with clearly visible shoulders high in the frame and hips low
in the frame. -/
def demoPose : PoseResult :=
  { detected := true
    leftShoulder := { x := 3/10, y := 1/10, visibility := 9/10 }
    rightShoulder := { x := 7/10, y := 1/10, visibility := 9/10 }
    leftHip := { x := 2/5, y := 9/10, visibility := 9/10 }
    rightHip := { x := 3/5, y := 9/10, visibility := 9/10 } }

/-- Evaluation of the locator on `demoPose` in a 1000×1000 image:
shoulders at rows 100, hips at rows 900, anchor `178×12+645×354`. -/
theorem detect_demoPose :
    detectTorsoAnchor 1000 1000 demoPose
      = some { x := 178, y := 12, w := 645, h := 354 } := by
  rw [detectTorsoAnchor]
  norm_num [demoPose, pyint, ratFloor_eq]
  decide

/-- Witness for `C5_anchor_invariant` at `demoPose`. -/
theorem C5_anchor_invariant_witness :
    0 < (TorsoAnchor.mk 178 12 645 354).w
    ∧ 0 < (TorsoAnchor.mk 178 12 645 354).h
    ∧ (TorsoAnchor.mk 178 12 645 354).x + (TorsoAnchor.mk 178 12 645 354).w ≤ ((1000 : Nat) : Int)
    ∧ (TorsoAnchor.mk 178 12 645 354).y + (TorsoAnchor.mk 178 12 645 354).h ≤ ((1000 : Nat) : Int)
    ∧ 20 < (TorsoAnchor.mk 178 12 645 354).w
    ∧ 20 < (TorsoAnchor.mk 178 12 645 354).h
    ∧ 0 ≤ (TorsoAnchor.mk 178 12 645 354).x
    ∧ 0 ≤ (TorsoAnchor.mk 178 12 645 354).y :=
  C5_anchor_invariant 1000 1000 demoPose _ detect_demoPose

/-- C6 (counterexample): on `demoPose` (visible hips at pixel row 900)
the locator of `app/ai/pose.py` returns an anchor whose bottom edge is
row `12 + 354 = 366`, far above the hip line at row 900: the anchor does
not extend down to the hip line derived from the hip landmarks. -/
theorem C6_counterexample :
    detectTorsoAnchor 1000 1000 demoPose
      = some { x := 178, y := 12, w := 645, h := 354 }
    ∧ hipLineY 1000 demoPose = 900
    ∧ ((12 : ℚ) + 354 < hipLineY 1000 demoPose) := by
  refine ⟨detect_demoPose, ?_, ?_⟩ <;> norm_num [hipLineY, demoPose]

/-- Bounds of Python `//` by 2 on ints. -/
theorem fdiv2_bounds (n : Int) : 2 * Int.fdiv n 2 ≤ n ∧ n ≤ 2 * Int.fdiv n 2 + 1 := by
  rw [Int.fdiv_eq_ediv _ (by norm_num)]
  omega

/-- Bounds of `int(n * 0.25)` on a nonnegative int `n`. -/
theorem pyint_quarter_bounds (n : Int) (hn : 0 ≤ n) :
    4 * pyint ((n : ℚ) * (1/4)) ≤ n ∧ n ≤ 4 * pyint ((n : ℚ) * (1/4)) + 3 := by
  have hq : ¬((n : ℚ) * (1/4) < 0) := by
    push_neg
    positivity
  rw [pyint_eq, if_neg hq]
  have h1 := Int.floor_le ((n : ℚ) * (1/4))
  have h2 := Int.lt_floor_add_one ((n : ℚ) * (1/4))
  constructor
  · have h3 : (4 : ℚ) * (⌊(n : ℚ) * (1/4)⌋ : ℚ) ≤ (n : ℚ) := by linarith
    exact_mod_cast h3
  · have h4 : (n : ℚ) < 4 * (⌊(n : ℚ) * (1/4)⌋ : ℚ) + 4 := by linarith
    have h5 : n < 4 * ⌊(n : ℚ) * (1/4)⌋ + 4 := by exact_mod_cast h4
    omega

/-- C6 (amended): whenever the locator returns an anchor whose rectangle
lies strictly inside the image (so no border clamp fired), the rectangle
is centered horizontally on the shoulder midpoint column to within one
pixel, its top sits above the shoulder midpoint row by an upward offset
of one quarter of its height (to within rounding), and its height is the
fixed `0.55` ratio of its width; the hip landmarks are not read at all —
the same anchor is returned for any hip positions — so the bottom edge
need not reach the hip line. -/
theorem C6_amended_anchor (W H : Nat) (res : PoseResult) (lhip rhip : Landmark)
    (a : TorsoAnchor)
    (h : detectTorsoAnchor W H res = some a)
    (hax : 0 < a.x) (hay : 0 < a.y)
    (haw : a.x + a.w < (W : Int)) (hah : a.y + a.h < (H : Int)) :
    (2 * shoulderMidX W res ≤ 2 * a.x + a.w
      ∧ 2 * a.x + a.w ≤ 2 * shoulderMidX W res + 1)
    ∧ (a.y ≤ shoulderMidY H res
        ∧ 4 * (shoulderMidY H res - a.y) ≤ a.h
        ∧ a.h ≤ 4 * (shoulderMidY H res - a.y) + 3)
    ∧ a.h = pyint ((a.w : ℚ) * (55/100))
    ∧ detectTorsoAnchor W H { res with leftHip := lhip, rightHip := rhip } = some a := by
  have hhip : detectTorsoAnchor W H { res with leftHip := lhip, rightHip := rhip }
      = detectTorsoAnchor W H res := rfl
  have hmain : (2 * shoulderMidX W res ≤ 2 * a.x + a.w
      ∧ 2 * a.x + a.w ≤ 2 * shoulderMidX W res + 1)
    ∧ (a.y ≤ shoulderMidY H res
        ∧ 4 * (shoulderMidY H res - a.y) ≤ a.h
        ∧ a.h ≤ 4 * (shoulderMidY H res - a.y) + 3)
    ∧ a.h = pyint ((a.w : ℚ) * (55/100)) := by
    clear hhip
    simp only [detectTorsoAnchor] at h
    simp only [shoulderMidX, shoulderMidY]
    set lx := pyint (res.leftShoulder.x * (W : ℚ)) with hlx
    set ly := pyint (res.leftShoulder.y * (H : ℚ)) with hly
    set rx := pyint (res.rightShoulder.x * (W : ℚ)) with hrx
    set ry := pyint (res.rightShoulder.y * (H : ℚ)) with hry
    set sw := max 1 |rx - lx| with hsw
    set tw0 := pyint ((sw : ℚ) / (62/100)) with htw
    set th0 := pyint ((tw0 : ℚ) * (55/100)) with hth
    set cx := Int.fdiv (lx + rx) 2 with hcx
    set cy := Int.fdiv (ly + ry) 2 with hcy
    set xp := cx - Int.fdiv tw0 2 with hxp
    set yp := cy - pyint ((th0 : ℚ) * (1/4)) with hyp
    set x1 := max 0 (min ((W : Int) - 1) xp) with hx1
    set y1 := max 0 (min ((H : Int) - 1) yp) with hy1
    split_ifs at h <;>
      (rw [Option.some_inj] at h; subst h;
       dsimp only at hax hay haw hah ⊢)
    all_goals
      have hfd := fdiv2_bounds tw0
    all_goals
      first
      | (exfalso; omega)
      | (have hqb := pyint_quarter_bounds th0 (by omega)
         refine ⟨⟨by omega, by omega⟩, ⟨by omega, by omega, by omega⟩, hth⟩)
  exact ⟨hmain.1, hmain.2.1, hmain.2.2, hhip.trans h⟩

/-- Witness for `C6_amended_anchor` at `demoPose`: the anchor is centered
on the shoulder midpoint column 500, has the `0.55` height ratio, and is
unchanged when both hip landmarks are replaced by degenerate ones. -/
theorem C6_amended_anchor_witness :
    2 * shoulderMidX 1000 demoPose ≤ 2 * (178 : Int) + 645
    ∧ 2 * (178 : Int) + 645 ≤ 2 * shoulderMidX 1000 demoPose + 1
    ∧ (354 : Int) = pyint (((645 : Int) : ℚ) * (55/100))
    ∧ detectTorsoAnchor 1000 1000
        { demoPose with leftHip := { x := 0, y := 0, visibility := 0 },
                        rightHip := { x := 0, y := 0, visibility := 0 } }
      = some { x := 178, y := 12, w := 645, h := 354 } := by
  have h := C6_amended_anchor 1000 1000 demoPose
    { x := 0, y := 0, visibility := 0 } { x := 0, y := 0, visibility := 0 }
    { x := 178, y := 12, w := 645, h := 354 } detect_demoPose
    (by norm_num) (by norm_num) (by norm_num) (by norm_num)
  exact ⟨h.1.1, h.1.2, h.2.2.1, h.2.2.2⟩

/-- `toUint8` is the identity on a uint8 channel value. -/
theorem toUint8_natCast (n : Nat) (hn : n ≤ 255) : toUint8 ((n : ℚ)) = n := by
  unfold toUint8 clip
  rw [if_neg (by push_neg; positivity), if_neg (by push_neg; exact_mod_cast hn)]
  rw [ratFloor_eq, Int.floor_natCast]
  exact Int.toNat_natCast n

/-- `toUint8` of a value below a uint8 bound stays below that bound. -/
theorem toUint8_le (q : ℚ) (n : Nat) (hq : q ≤ (n : ℚ)) (hn : n ≤ 255) :
    toUint8 q ≤ n := by
  unfold toUint8 clip
  split_ifs with h1 h2
  · simp [ratFloor_eq]
  · exfalso
    have h3 : (n : ℚ) ≤ 255 := by exact_mod_cast hn
    linarith
  · rw [ratFloor_eq]
    have h3 : ⌊q⌋ ≤ (n : Int) := by
      calc ⌊q⌋ ≤ ⌊(n : ℚ)⌋ := Int.floor_le_floor hq
      _ = n := Int.floor_natCast n
    omega

/-- C7: the compositor with an everywhere-0 alpha returns the background
unchanged at every pixel; with an everywhere-255 alpha every pixel of the
overlap region equals the corresponding foreground pixel exactly; pixels
outside the overlap always keep the background value. -/
theorem C7_compositor (bh bw fh fw : Nat) (base fgRgb : Nat → Nat → Nat → Nat)
    (fgA : Nat → Nat → Nat) (x y : Int)
    (hbase : ∀ i j c, base i j c ≤ 255) (hfg : ∀ i j c, fgRgb i j c ≤ 255) :
    ((∀ i j, fgA i j = 0) →
      ∀ i j c, overlayBgraOnBgr bh bw base fh fw fgRgb fgA x y i j c = base i j c)
    ∧ ((∀ i j, fgA i j = 255) →
      ∀ i j c, inOverlap bh bw fh fw x y i j →
        overlayBgraOnBgr bh bw base fh fw fgRgb fgA x y i j c
          = fgRgb ((i : Int) - y).toNat ((j : Int) - x).toNat c)
    ∧ (∀ i j c, ¬inOverlap bh bw fh fw x y i j →
        overlayBgraOnBgr bh bw base fh fw fgRgb fgA x y i j c = base i j c) := by
  unfold overlayBgraOnBgr
  split_ifs with hempty
  · refine ⟨fun _ _ _ _ => rfl, fun hA i j c hov => ?_, fun _ _ _ _ => rfl⟩
    exfalso
    unfold inOverlap at hov
    omega
  · refine ⟨?_, ?_, ?_⟩
    · intro hA i j c
      dsimp only
      split_ifs with hin
      · rw [hA]
        norm_num
        exact toUint8_natCast _ (hbase i j c)
      · rfl
    · intro hA i j c hov
      unfold inOverlap at hov
      dsimp only
      rw [if_pos hov, hA]
      norm_num
      exact toUint8_natCast _ (hfg _ _ c)
    · intro i j c hov
      unfold inOverlap at hov
      dsimp only
      rw [if_neg hov]

/-- Witness for `C7_compositor`: a constant 100-valued 2×2 background and
a 1×1 foreground of value 7: alpha 0 keeps 100, alpha 255 writes 7. -/
theorem C7_compositor_witness :
    overlayBgraOnBgr 2 2 (fun _ _ _ => 100) 1 1 (fun _ _ _ => 7) (fun _ _ => 0) 0 0 0 0 0
      = 100
    ∧ overlayBgraOnBgr 2 2 (fun _ _ _ => 100) 1 1 (fun _ _ _ => 7) (fun _ _ => 255) 0 0 0 0 0
      = 7 := by
  have h0 := C7_compositor 2 2 1 1 (fun _ _ _ => 100) (fun _ _ _ => 7) (fun _ _ => 0) 0 0
    (fun _ _ _ => by norm_num) (fun _ _ _ => by norm_num)
  have h255 := C7_compositor 2 2 1 1 (fun _ _ _ => 100) (fun _ _ _ => 7) (fun _ _ => 255) 0 0
    (fun _ _ _ => by norm_num) (fun _ _ _ => by norm_num)
  refine ⟨h0.1 (fun _ _ => rfl) 0 0 0, ?_⟩
  have h := h255.2.1 (fun _ _ => rfl) 0 0 0 (by unfold inOverlap; norm_num)
  exact h

/-- C8: for a claimed (processing) job whose images read fine but whose
person image yields no pose anchor, `process_one` persists the job as
`error` with `error_code = POSE_NOT_FOUND` and the truncated
human-readable message, leaves `result_image_ref` null, and returns
normally (`False`) instead of propagating the failure. -/
theorem C8_pose_not_found (env : WorkerEnv) (j : Job)
    (hst : j.status = .processing)
    (hp : env.personReadOk = true) (hg : env.garmentReadOk = true)
    (ha : env.anchor = none) (hres : j.resultImagePath = none) :
    (processOne env j).1.status = .error
    ∧ (processOne env j).1.errorCode = some "POSE_NOT_FOUND"
    ∧ (processOne env j).1.errorMessage = some (poseNotFoundHuman.take 2000)
    ∧ (processOne env j).1.resultImagePath = none
    ∧ (processOne env j).2 = false := by
  simp only [processOne, pipelineBody, classifyError, markError, hst, hp, hg, ha]
  norm_num
  exact hres

/-- The environment of a worker run whose pose detection finds nothing. -/
def noPoseEnv : WorkerEnv :=
  { personReadOk := true, garmentReadOk := true, anchor := none, writeOk := true, now := 500 }

/-- Witness for `C8_pose_not_found` on the claimed scenario job. -/
theorem C8_pose_not_found_witness :
    (processOne noPoseEnv scenarioStuckJob).1.status = JobStatus.error
    ∧ (processOne noPoseEnv scenarioStuckJob).1.errorCode = some "POSE_NOT_FOUND"
    ∧ (processOne noPoseEnv scenarioStuckJob).1.errorMessage
        = some (poseNotFoundHuman.take 2000)
    ∧ (processOne noPoseEnv scenarioStuckJob).1.resultImagePath = none
    ∧ (processOne noPoseEnv scenarioStuckJob).2 = false :=
  C8_pose_not_found noPoseEnv scenarioStuckJob rfl rfl rfl rfl rfl

/-- C10: border decontamination copies the opacity channel unchanged at
every pixel; every pixel whose normalized opacity is at most `0.02` or at
least `0.85` keeps its RGB values exactly; RGB values never increase;
and any pixel whose RGB changed has opacity strictly between `0.02` and
`0.85`. -/
theorem C10_decontaminate (img : Nat → Nat → Bgra) (i j : Nat)
    (hb : (img i j).b ≤ 255) (hg : (img i j).g ≤ 255) (hr : (img i j).r ≤ 255) :
    (decontaminateBorder img i j).a = (img i j).a
    ∧ ((((img i j).a : ℚ)/255 ≤ 1/50 ∨ 17/20 ≤ ((img i j).a : ℚ)/255) →
        (decontaminateBorder img i j).b = (img i j).b
        ∧ (decontaminateBorder img i j).g = (img i j).g
        ∧ (decontaminateBorder img i j).r = (img i j).r)
    ∧ ((decontaminateBorder img i j).b ≤ (img i j).b
        ∧ (decontaminateBorder img i j).g ≤ (img i j).g
        ∧ (decontaminateBorder img i j).r ≤ (img i j).r)
    ∧ (((decontaminateBorder img i j).b ≠ (img i j).b
        ∨ (decontaminateBorder img i j).g ≠ (img i j).g
        ∨ (decontaminateBorder img i j).r ≠ (img i j).r) →
        1/50 < ((img i j).a : ℚ)/255 ∧ ((img i j).a : ℚ)/255 < 17/20) := by
  unfold decontaminateBorder decontaminatePixel
  dsimp only
  split_ifs with hedge
  · -- edge band: RGB scaled by a factor strictly inside (0, 1]
    have hfac1 : (1 : ℚ) - 7/20 * ((17/20 - ((img i j).a : ℚ)/255) / (83/100)) ≤ 1 := by
      have h0 : (0 : ℚ) ≤ (17/20 - ((img i j).a : ℚ)/255) / (83/100) := by
        have := hedge.2
        have hnum : (0 : ℚ) ≤ 17/20 - ((img i j).a : ℚ)/255 := by linarith
        positivity
      linarith
    have hle : ∀ (n : Nat), n ≤ 255 →
        toUint8 ((n : ℚ) * (1 - 7/20 * ((17/20 - ((img i j).a : ℚ)/255) / (83/100)))) ≤ n := by
      intro n hn
      refine toUint8_le _ n ?_ hn
      calc (n : ℚ) * (1 - 7/20 * ((17/20 - ((img i j).a : ℚ)/255) / (83/100)))
          ≤ (n : ℚ) * 1 := by
            have hnn : (0 : ℚ) ≤ (n : ℚ) := by positivity
            exact mul_le_mul_of_nonneg_left hfac1 hnn
      _ = n := mul_one _
    refine ⟨rfl, ?_, ⟨hle _ hb, hle _ hg, hle _ hr⟩, fun _ => hedge⟩
    intro hout
    exfalso
    rcases hout with hout | hout
    · exact absurd hedge.1 (not_lt.mpr hout)
    · exact absurd hedge.2 (not_lt.mpr hout)
  · -- outside the band: factor is exactly 1
    have hid : ∀ (n : Nat), n ≤ 255 → toUint8 ((n : ℚ) * (1 - 7/20 * 0)) = n := by
      intro n hn
      rw [show (1 : ℚ) - 7/20 * 0 = 1 by norm_num, mul_one]
      exact toUint8_natCast n hn
    refine ⟨rfl, fun _ => ⟨hid _ hb, hid _ hg, hid _ hr⟩, ?_, ?_⟩
    · exact ⟨le_of_eq (hid _ hb), le_of_eq (hid _ hg), le_of_eq (hid _ hr)⟩
    · intro hne
      exfalso
      rcases hne with hne | hne | hne
      · exact hne (hid _ hb)
      · exact hne (hid _ hg)
      · exact hne (hid _ hr)

/-- A fully opaque mid-grey pixel image. -/
def opaqueImg : Nat → Nat → Bgra := fun _ _ => { b := 100, g := 100, r := 100, a := 255 }

/-- Witness for `C10_decontaminate` on a fully opaque pixel: all four
channels are unchanged. -/
theorem C10_decontaminate_witness :
    (decontaminateBorder opaqueImg 0 0).a = (opaqueImg 0 0).a
    ∧ (decontaminateBorder opaqueImg 0 0).b = (opaqueImg 0 0).b
    ∧ (decontaminateBorder opaqueImg 0 0).g = (opaqueImg 0 0).g
    ∧ (decontaminateBorder opaqueImg 0 0).r = (opaqueImg 0 0).r := by
  have h := C10_decontaminate opaqueImg 0 0 (by norm_num [opaqueImg]) (by norm_num [opaqueImg])
    (by norm_num [opaqueImg])
  have hop := h.2.1 (Or.inr (by norm_num [opaqueImg]))
  exact ⟨h.1, hop.1, hop.2.1, hop.2.2⟩

end TryOnSaas
